import Mathlib

/-!
Verification of the FilmSupply harvesting pipeline (src/OLD/harv.py and
src/OLD/harv_titles_votes.py) via a shallow embedding in Lean 4.

The two scripts share a two-stage pipeline: a paginated listing harvest
(fetch_page / fetch_all_submissions), a hash gate (and, in
harv_titles_votes.py, a category filter), a detail harvest that enriches
each record with votes (and, in harv_titles_votes.py, a title), and CSV
output.  Network and browser effects are abstracted as explicit inputs:
an HTTP response value per page, a rendered page content value per record,
and a task-outcome value (normal result or raised exception) per worker
task.  All functions below are straight translations of the Python source.
-/

/-- One raw entry of the listing API's `data` array.  Python dict fields
that may be absent are `Option`s (`dict.get` with a default models both
the missing-key and the `None` case for truthiness purposes). -/
structure RawEntry where
  hash : Option String
  title : Option String
  name : Option String
  category : Option String
deriving DecidableEq, Repr

/-- A submission record as built by the scripts (the Python dicts carry
these keys after preparation/enrichment).  `votes` is `none` until the
detail extractor sets it; extraction failure leaves it `none`. -/
structure Submission where
  url : Option String
  title : Option String
  name : Option String
  category : Option String
  hash : Option String
  votes : Option Nat
deriving DecidableEq, Repr

/-- The `meta` object of the listing API body (`meta.last_page`). -/
structure MetaObj where
  lastPage : Option Nat
deriving DecidableEq, Repr

/-- A parsed JSON body of one listing API response: an optional `data`
array and an optional `meta` object (`data.get('data', [])`,
`data.get('meta', {})`). -/
structure ApiBody where
  dataField : Option (List RawEntry)
  metaField : Option MetaObj
deriving DecidableEq, Repr

/-- Outcome of one HTTP request: either a transport/JSON-parse exception
(anything the `try` in `fetch_page` catches), or a response with a status
code and a parsed body. -/
inductive ApiResult where
  | exn : ApiResult
  | resp (status : Nat) (body : ApiBody) : ApiResult
deriving DecidableEq, Repr

/-- `re.search(r'(\d+)', s)` on a list of characters: the match starts at
the first character that is a decimal digit and extends over the maximal
run of digits from there; `none` when no character is a digit. -/
def firstDigitRun : List Char → Option (List Char)
  | [] => none
  | c :: rest =>
      if c.isDigit then some (c :: rest.takeWhile Char.isDigit)
      else firstDigitRun rest

/-- `int(...)` on a run of decimal digits. -/
def digitsToNat (ds : List Char) : Nat :=
  ds.foldl (fun acc c => acc * 10 + (c.toNat - 48)) 0

/-- `re.search(r'(\d+)', text)` followed by `int(match.group(1))`:
the value of the first run of decimal digits in `text`, if any. -/
def searchDigits (text : String) : Option Nat :=
  (firstDigitRun text.data).map digitsToNat

/-- The vote-extraction loop shared by `extract_votes` (harv.py:145-155)
and `extract_submission_details` (harv_titles_votes.py:148-157): walk the
marker texts in document order; the first text yielding a digit run sets
`votes` and the loop breaks; if none yields one, `votes` stays `None`. -/
def extractVotes : List String → Option Nat
  | [] => none
  | t :: rest =>
      match searchDigits t with
      | some n => some n
      | none => extractVotes rest


/-- `fetch_page` (harv.py:44-66, harv_titles_votes.py:34-58): a non-200
status or any exception yields `[]`; otherwise the body's `data` array
with default `[]` (`data.get('data', [])`). -/
def fetchPage : ApiResult → List RawEntry
  | .exn => []
  | .resp status body => if status ≠ 200 then [] else body.dataField.getD []

/-- `fetch_all_submissions` (harv.py:68-88): every page's entries are
appended to one aggregate list; the list of `ApiResult`s stands for the
per-page responses in the order the futures complete. -/
def fetchAllSubmissions (rs : List ApiResult) : List RawEntry :=
  (rs.map fetchPage).flatten

/-- Python truthiness of `submission.get('hash')`: false for a missing
key / `None` and for the empty string. -/
def truthyStr : Option String → Bool
  | none => false
  | some s => s ≠ ""

/-- `SUBMISSION_URL_TEMPLATE.format(submission_hash=h)` (harv.py:17). -/
def submissionUrl (h : String) : String :=
  "https://editfest.filmsupply.com/submissions/" ++ h

/-- Step 3 of harv.py's `main` (lines 224-241) for one raw entry: a
truthy hash yields a prepared record with the hash-derived url and
defaulted fields; otherwise the entry is dropped with a warning. -/
def prepare (raw : RawEntry) : Option Submission :=
  if truthyStr raw.hash then
    some { url := some (submissionUrl (raw.hash.getD ""))
           title := some (raw.title.getD "No Title")
           name := some (raw.name.getD "No Name")
           category := some (raw.category.getD "No Category")
           hash := raw.hash
           votes := none }
  else none

/-- The whole preparation loop of harv.py's Step 3 over the merged raw
entries. -/
def prepareAll (raws : List RawEntry) : List Submission :=
  raws.filterMap prepare

/-- Listing harvest followed by preparation: the merged listing record
set of harv.py. -/
def listingMerge (rs : List ApiResult) : List Submission :=
  prepareAll (fetchAllSubmissions rs)

/-- Step 1 of `main` (harv.py:203-216, harv_titles_votes.py:235-249):
fetch page 1; on non-200 status or any exception, log and `return`
(abort, modelled as `none`); otherwise
`data.get('meta', {}).get('last_page', 1)`. -/
def parseLastPage : ApiResult → Option Nat
  | .exn => none
  | .resp status body =>
      if status ≠ 200 then none
      else some (((body.metaField.getD { lastPage := none }).lastPage).getD 1)

/-- The page responses dispatched for pages `1..lastPage`
(`range(1, total_pages + 1)`), given an oracle from page number to
response. -/
def pageResults (pages : Nat → ApiResult) (lastPage : Nat) : List ApiResult :=
  (List.range lastPage).map (fun i => pages (i + 1))

/-- Python `str.strip()` on both ends (whitespace). -/
def pyStrip (s : String) : String :=
  ⟨((s.data.dropWhile Char.isWhitespace).reverse.dropWhile Char.isWhitespace).reverse⟩

/-- Python `str.lower()` (ASCII case fold suffices for the categories in
play). -/
def pyLower (s : String) : String :=
  ⟨s.data.map Char.toLower⟩

/-- Step 3 of harv_titles_votes.py's `main` (lines 256-268): keep an
entry when its hash is truthy and
`submission.get('category', '').strip().lower() == "title sequence"`. -/
def filterTitleSequence (raws : List RawEntry) : List RawEntry :=
  raws.filter (fun s => truthyStr s.hash && pyLower (pyStrip (s.category.getD "")) == "title sequence")

/-- The rendered detail-page content a Detail Extractor observes: the
title marker's text when the element lookup succeeded, and the
vote-marker texts in document order (already `.strip()`ed by the
scraping expression). -/
structure PageContent where
  titleText : Option String
  voteTexts : List String

/-- Title extraction of `extract_submission_details`
(harv_titles_votes.py:129-141): trimmed marker text when non-empty,
otherwise `None` (also `None` when the element lookup raised). -/
def extractTitle : Option String → Option String
  | none => none
  | some s => if pyStrip s ≠ "" then some (pyStrip s) else none

/-- `extract_votes` (harv.py:90-177) on the record it was handed, for a
fixed rendered content: only the `votes` key is set. -/
def extractVotesRecord (s : Submission) (voteTexts : List String) : Submission :=
  { s with votes := extractVotes voteTexts }

/-- `extract_submission_details` (harv_titles_votes.py:87-184) on the
record it was handed, for a fixed rendered content: sets `title`,
`votes` and (re)sets `url` from the hash (lines 181-183; an f-string
renders a missing hash as the text "None"). -/
def extractSubmissionDetails (s : Submission) (c : PageContent) : Submission :=
  { s with title := extractTitle c.titleText
           votes := extractVotes c.voteTexts
           url := some (submissionUrl (s.hash.getD "None")) }

/-- Outcome of one worker-pool future: a normal result or a raised
exception (`future.result()` re-raises). -/
inductive TaskOutcome (α : Type) where
  | ok (a : α) : TaskOutcome α
  | raised : TaskOutcome α
deriving DecidableEq, Repr

/-- `extract_all_votes` (harv.py:179-201): each pair is one dispatched
task, in completion order, with the input record and its future's
outcome; a raised task appends the input record with only
`submission['votes'] = None` forced. -/
def extractAllVotes (tasks : List (Submission × TaskOutcome Submission)) : List Submission :=
  tasks.map (fun p =>
    match p.2 with
    | .ok u => u
    | .raised => { p.1 with votes := none })

/-- `extract_all_submission_details` (harv_titles_votes.py:186-225): a
raised task appends the input record with both `title` and `votes`
forced to `None`. -/
def extractAllSubmissionDetails (tasks : List (Submission × TaskOutcome Submission)) : List Submission :=
  tasks.map (fun p =>
    match p.2 with
    | .ok u => u
    | .raised => { p.1 with title := none, votes := none })

/-- harv.py's pipeline through Step 4 (lines 203-248): abort when page-1
discovery fails; otherwise fetch pages `1..last_page`, prepare (hash
gate), and run the detail harvest, with `outcome` giving each dispatched
task's future result. -/
def runPipeline (page1 : ApiResult) (pages : Nat → ApiResult)
    (outcome : Submission → TaskOutcome Submission) : Option (List Submission) :=
  match parseLastPage page1 with
  | none => none
  | some lastPage =>
      let prepared := prepareAll (fetchAllSubmissions (pageResults pages lastPage))
      some (extractAllVotes (prepared.map (fun s => (s, outcome s))))

/-- The CSV field list of harv.py's Step 5 (line 252). -/
def csvKeysHarv : List String := ["url", "title", "name", "category", "votes"]

/-- The CSV field list of harv_titles_votes.py's Step 5 (line 279). -/
def csvKeysTv : List String := ["url", "title", "votes", "name", "category", "hash"]

/-- One CSV cell for an optional string field: `submission.get(key, '')`
plus the csv module writing `None` as the empty string. -/
def pyCell : Option String → String
  | none => ""
  | some s => s

/-- `row = {key: submission.get(key, '') for key in keys}` of
harv_titles_votes.py:286 for one key, with the csv module serializing
`None` as empty and `str()` applied to the integer votes value. -/
def getCsvField (s : Submission) (k : String) : String :=
  if k == "url" then pyCell s.url
  else if k == "title" then pyCell s.title
  else if k == "votes" then (match s.votes with | some v => toString v | none => "")
  else if k == "name" then pyCell s.name
  else if k == "category" then pyCell s.category
  else if k == "hash" then pyCell s.hash
  else ""

/-- One emitted CSV row of harv_titles_votes.py (fields in `keys`
order). -/
def csvRowTv (s : Submission) : List String :=
  csvKeysTv.map (getCsvField s)

/-- A page response counts as failing for `fetch_page` when the request
raised (or the body failed to parse) or the status is not 200. -/
def failingResult (r : ApiResult) : Prop :=
  r = .exn ∨ ∃ s b, r = .resp s b ∧ s ≠ 200

/-- A record with a listing title and votes, used to exercise the detail
harvesters on a raised task. -/
def keptTitleSub : Submission :=
  { url := none, title := some "Kept Title", name := some "A"
    category := some "C", hash := some "h", votes := some 5 }

/-- A raw entry whose category carries surrounding whitespace. -/
def paddedCategoryEntry : RawEntry :=
  { hash := some "h1", title := none, name := none, category := some " title sequence " }

/-- First record of the category-filter example (category exactly
matches the filter up to case). -/
def catEntry1 : RawEntry :=
  { hash := some "h1", title := none, name := none, category := some "Title Sequence" }

/-- Second record of the category-filter example (different category). -/
def catEntry2 : RawEntry :=
  { hash := some "h2", title := none, name := none, category := some "Trailer" }

/-- Third record of the category-filter example (lowercase category). -/
def catEntry3 : RawEntry :=
  { hash := some "h3", title := none, name := none, category := some "title sequence" }

/-- A raw entry with a fixed hash, fed in twice to exhibit duplicate
hashes surviving the merge. -/
def dupHashEntry : RawEntry :=
  { hash := some "dup", title := none, name := none, category := none }

/-- A fully populated record for evaluating a CSV row. -/
def csvDemoSub : Submission :=
  { url := some "u", title := some "t", name := some "n"
    category := some "c", hash := some "h", votes := some 7 }


theorem extractVotes_cons_none {t : String} {rest : List String}
    (h : searchDigits t = none) : extractVotes (t :: rest) = extractVotes rest := by
  simp [extractVotes, h]

theorem extractVotes_cons_some {t : String} {rest : List String} {n : Nat}
    (h : searchDigits t = some n) : extractVotes (t :: rest) = some n := by
  simp [extractVotes, h]

theorem extractVotes_all_none {ts : List String}
    (h : ∀ s ∈ ts, searchDigits s = none) : extractVotes ts = none := by
  induction ts with
  | nil => rfl
  | cons t rest ih =>
      rw [extractVotes_cons_none (h t (by simp))]
      exact ih (fun s hs => h s (by simp [hs]))

theorem truthyStr_iff (o : Option String) :
    truthyStr o = true ↔ ∃ h, o = some h ∧ h ≠ "" := by
  cases o with
  | none => simp [truthyStr]
  | some s => simp [truthyStr]

theorem prepare_eq_some {raw : RawEntry} {s : Submission}
    (h : prepare raw = some s) : s.hash = raw.hash ∧ truthyStr raw.hash = true := by
  unfold prepare at h
  by_cases ht : truthyStr raw.hash = true
  · rw [if_pos ht] at h
    exact ⟨by rw [← Option.some_inj.mp h], ht⟩
  · rw [if_neg ht] at h
    exact absurd h (by simp)

/-- C1: over the marker texts in document order, the vote-extraction
rule returns the value of the first decimal-digit run of the first text
containing one, independently of all later texts; when no text contains
a digit run (including the empty list), votes is null.  The concrete
cases of the spec: ["120 votes"] yields 120, ["Vote #3 of 120"] yields 3
(first digit run wins), ["no data"] and [] yield null. -/
theorem extractVotes_first_digit_run_rule :
    (∀ (pre : List String) (t : String) (post : List String) (n : Nat),
        (∀ s ∈ pre, searchDigits s = none) → searchDigits t = some n →
        extractVotes (pre ++ t :: post) = some n) ∧
    (∀ ts : List String, (∀ s ∈ ts, searchDigits s = none) → extractVotes ts = none) ∧
    extractVotes ["120 votes"] = some 120 ∧
    extractVotes ["Vote #3 of 120"] = some 3 ∧
    extractVotes ["no data"] = none ∧
    extractVotes [] = none := by
  refine ⟨?_, fun ts h => extractVotes_all_none h, by decide, by decide, by decide, rfl⟩
  intro pre t post n hpre ht
  induction pre with
  | nil => exact extractVotes_cons_some ht
  | cons p rest ih =>
      rw [List.cons_append, extractVotes_cons_none (hpre p (by simp))]
      exact ih (fun s hs => hpre s (by simp [hs]))

/-- Witness for C1: a later text with digits ("99 left") does not change
the result once "Vote #3 of 120" matched. -/
theorem extractVotes_first_digit_run_rule_witness :
    extractVotes ["no data", "Vote #3 of 120", "99 left"] = some 3 :=
  extractVotes_first_digit_run_rule.1 ["no data"] "Vote #3 of 120" ["99 left"] 3
    (by decide) (by decide)

/-- C9: for a fixed rendered detail-page content, extraction is
deterministic and idempotent — applying it a second time to its own
output (same content) changes nothing, in either script. -/
theorem detailExtraction_idempotent (s : Submission) (c : PageContent) (vs : List String) :
    extractSubmissionDetails (extractSubmissionDetails s c) c = extractSubmissionDetails s c ∧
    extractVotesRecord (extractVotesRecord s vs) vs = extractVotesRecord s vs :=
  ⟨rfl, rfl⟩

/-- C4: a raw entry whose hash is missing or empty is excluded from the
prepared record set (and from the filtered set of harv_titles_votes.py),
so every record passing into detail extraction carries a non-empty hash;
the detail extractors never change the hash, so the invariant reaches
the output. -/
theorem hash_gate_excludes_hashless (raws : List RawEntry) :
    (∀ raw : RawEntry, truthyStr raw.hash = false → prepare raw = none) ∧
    (∀ s ∈ prepareAll raws, ∃ h, s.hash = some h ∧ h ≠ "") ∧
    (∀ r ∈ filterTitleSequence raws, ∃ h, r.hash = some h ∧ h ≠ "") ∧
    (∀ (s : Submission) (c : PageContent) (vs : List String),
        (extractVotesRecord s vs).hash = s.hash ∧
        (extractSubmissionDetails s c).hash = s.hash) := by
  refine ⟨fun raw h => by simp [prepare, h], ?_, ?_, fun s c vs => ⟨rfl, rfl⟩⟩
  · intro s hs
    obtain ⟨raw, _, hp⟩ := List.mem_filterMap.mp hs
    obtain ⟨hhash, htruthy⟩ := prepare_eq_some hp
    obtain ⟨h, hh, hne⟩ := (truthyStr_iff raw.hash).mp htruthy
    exact ⟨h, by rw [hhash, hh], hne⟩
  · intro r hr
    obtain ⟨_, hcond⟩ := List.mem_filter.mp hr
    have htruthy : truthyStr r.hash = true := (Bool.and_eq_true _ _).mp hcond |>.1
    exact (truthyStr_iff r.hash).mp htruthy

/-- Witness for C4: a hashless entry and an empty-hash entry are both
dropped while a hashed entry survives with its non-empty hash. -/
theorem hash_gate_excludes_hashless_witness :
    prepare { hash := none, title := none, name := none, category := none } = none ∧
    ∃ h, Submission.hash ⟨some (submissionUrl "h1"), some "No Title", some "No Name",
        some "Title Sequence", some "h1", none⟩ = some h ∧ h ≠ "" := by
  refine ⟨(hash_gate_excludes_hashless []).1 _ (by decide), ?_⟩
  exact (hash_gate_excludes_hashless [catEntry1]).2.1 _ (by decide)

/-- C6: a failing page response (exception or non-200 status) yields the
empty entry list from `fetch_page`, and removing such a page from the
dispatched set leaves the merged raw-entry list of all other pages
unchanged. -/
theorem fetchPage_failure_isolation (pre post : List ApiResult) (r : ApiResult)
    (h : failingResult r) :
    fetchPage r = [] ∧
    fetchAllSubmissions (pre ++ r :: post) = fetchAllSubmissions (pre ++ post) := by
  have hempty : fetchPage r = [] := by
    rcases h with h | ⟨s, b, hr, hs⟩
    · rw [h]; rfl
    · rw [hr]; simp [fetchPage, hs]
  exact ⟨hempty, by simp [fetchAllSubmissions, hempty]⟩

/-- Witness for C6: with page 2 failing on a 500 status between two good
pages, the merge equals the merge of just the two good pages. -/
theorem fetchPage_failure_isolation_witness :
    fetchPage (ApiResult.resp 500 { dataField := some [catEntry1], metaField := none }) = [] ∧
    fetchAllSubmissions
        ([ApiResult.resp 200 { dataField := some [catEntry1], metaField := none }] ++
          ApiResult.resp 500 { dataField := some [catEntry1], metaField := none } ::
          [ApiResult.resp 200 { dataField := some [catEntry2], metaField := none }]) =
      fetchAllSubmissions
        ([ApiResult.resp 200 { dataField := some [catEntry1], metaField := none }] ++
          [ApiResult.resp 200 { dataField := some [catEntry2], metaField := none }]) :=
  fetchPage_failure_isolation _ _ _ (Or.inr ⟨500, _, rfl, by decide⟩)

/-- C7: when the synchronous page-1 request fails (exception or non-200
status), page-count discovery yields no count and the whole pipeline
aborts with no output, whatever the other pages or detail tasks would
have returned. -/
theorem page1_failure_aborts (page1 : ApiResult) (h : failingResult page1) :
    parseLastPage page1 = none ∧
    ∀ (pages : Nat → ApiResult) (outcome : Submission → TaskOutcome Submission),
      runPipeline page1 pages outcome = none := by
  have hnone : parseLastPage page1 = none := by
    rcases h with h | ⟨s, b, hr, hs⟩
    · rw [h]; rfl
    · rw [hr]; simp [parseLastPage, hs]
  exact ⟨hnone, fun pages outcome => by simp [runPipeline, hnone]⟩

/-- Witness for C7: a page-1 transport exception aborts the pipeline even
when every later page would have produced entries. -/
theorem page1_failure_aborts_witness :
    runPipeline ApiResult.exn
        (fun _ => ApiResult.resp 200 { dataField := some [catEntry1], metaField := none })
        (fun _ => TaskOutcome.raised) = none :=
  (page1_failure_aborts ApiResult.exn (Or.inl rfl)).2 _ _

/-- C10: a 200 page-1 response whose body lacks `meta` (or whose `meta`
lacks `last_page`) does not abort: the page count silently defaults to 1
and the pipeline output is computed from page 1 alone. -/
theorem missing_meta_defaults_one_page (body : ApiBody)
    (h : body.metaField = none ∨ ∃ m, body.metaField = some m ∧ m.lastPage = none) :
    parseLastPage (ApiResult.resp 200 body) = some 1 ∧
    ∀ (pages : Nat → ApiResult) (outcome : Submission → TaskOutcome Submission),
      runPipeline (ApiResult.resp 200 body) pages outcome =
        some (extractAllVotes ((prepareAll (fetchPage (pages 1))).map
          (fun s => (s, outcome s)))) := by
  have hone : parseLastPage (ApiResult.resp 200 body) = some 1 := by
    rcases h with h | ⟨m, hm, hlp⟩
    · simp [parseLastPage, h]
    · simp [parseLastPage, hm, hlp]
  refine ⟨hone, fun pages outcome => ?_⟩
  simp [runPipeline, hone, pageResults, fetchAllSubmissions, List.range_succ]

/-- Witness for C10: a metaless 200 body leads to a one-page harvest of
page 1 only. -/
theorem missing_meta_defaults_one_page_witness :
    runPipeline (ApiResult.resp 200 { dataField := some [], metaField := none })
        (fun _ => ApiResult.resp 200 { dataField := some [catEntry1], metaField := none })
        (fun s => TaskOutcome.ok s) =
      some (extractAllVotes ((prepareAll (fetchPage
        (ApiResult.resp 200 { dataField := some [catEntry1], metaField := none }))).map
          (fun s => (s, TaskOutcome.ok s)))) :=
  (missing_meta_defaults_one_page _ (Or.inl rfl)).2 _ _

/-- C2 counterexample: in harv.py, a raised detail task leaves the
listing title in place — the output record for `keptTitleSub` carries
title "Kept Title", not null, so the claim that both enrichment fields
are forced null in both scripts fails. -/
theorem extractAllVotes_keeps_title_cex :
    (extractAllVotes [(keptTitleSub, TaskOutcome.raised)]).map Submission.title =
      [some "Kept Title"] ∧
    (extractAllVotes [(keptTitleSub, TaskOutcome.raised)]).map Submission.votes = [none] := by
  decide

/-- C2 amended: a raised detail task never drops its record — each
harvester outputs exactly one entry per input task.  harv_titles_votes.py
forces both votes and title to null on a raised task; harv.py forces only
votes to null and keeps the title the record already had. -/
theorem detailHarvester_raised_nulls (tasks : List (Submission × TaskOutcome Submission)) :
    (extractAllVotes tasks).length = tasks.length ∧
    (extractAllSubmissionDetails tasks).length = tasks.length ∧
    (∀ s : Submission, (s, TaskOutcome.raised) ∈ tasks →
        ({ s with votes := none } ∈ extractAllVotes tasks ∧
         { s with title := none, votes := none } ∈ extractAllSubmissionDetails tasks ∧
         ({ s with votes := none } : Submission).title = s.title)) ∧
    (∀ u ∈ extractAllSubmissionDetails tasks,
        (∃ p ∈ tasks, p.2 = TaskOutcome.raised ∧
            u = { p.1 with title := none, votes := none }) ∨
        (∃ p ∈ tasks, p.2 = TaskOutcome.ok u)) := by
  refine ⟨List.length_map _ _, List.length_map _ _, ?_, ?_⟩
  · intro s hs
    refine ⟨List.mem_map.mpr ⟨(s, TaskOutcome.raised), hs, rfl⟩,
      List.mem_map.mpr ⟨(s, TaskOutcome.raised), hs, rfl⟩, rfl⟩
  · intro u hu
    obtain ⟨p, hp, he⟩ := List.mem_map.mp hu
    cases hout : p.2 with
    | ok a =>
        right
        refine ⟨p, hp, ?_⟩
        rw [hout]
        rw [hout] at he
        simp at he
        rw [he]
    | raised =>
        left
        refine ⟨p, hp, hout, ?_⟩
        rw [hout] at he
        simp at he
        rw [← he]

/-- Witness for C2 amended: the raised task over `keptTitleSub` stays in
the harv.py output with votes nulled. -/
theorem detailHarvester_raised_nulls_witness :
    ({ keptTitleSub with votes := none } : Submission) ∈
      extractAllVotes [(keptTitleSub, TaskOutcome.raised)] :=
  ((detailHarvester_raised_nulls [(keptTitleSub, TaskOutcome.raised)]).2.2.1
    keptTitleSub (by decide)).1

/-- C3 counterexample: the entry with category " title sequence "
(surrounding whitespace) is retained by the filter of
harv_titles_votes.py although its category is not a case-insensitive
exact match of "Title Sequence". -/
theorem categoryFilter_strip_cex :
    filterTitleSequence [paddedCategoryEntry] = [paddedCategoryEntry] ∧
    pyLower (paddedCategoryEntry.category.getD "") ≠ pyLower "Title Sequence" := by
  decide

/-- C3 amended: among entries with a truthy hash, the filter retains
exactly those whose category matches the filter string "Title Sequence"
case-insensitively after stripping surrounding whitespace; on the
spec example (categories "Title Sequence", "Trailer", "title sequence")
exactly the first and third are retained. -/
theorem categoryFilter_trim_ci_match (raws : List RawEntry) :
    filterTitleSequence raws =
      raws.filter (fun r => truthyStr r.hash &&
        (pyLower (pyStrip (r.category.getD "")) == pyLower "Title Sequence")) ∧
    filterTitleSequence [catEntry1, catEntry2, catEntry3] = [catEntry1, catEntry3] := by
  have h : pyLower "Title Sequence" = "title sequence" := by decide
  rw [h]
  exact ⟨rfl, by decide⟩

/-- C5 counterexample: one page whose raw entries repeat the hash "dup"
produces a merged prepared set with two records of the same hash — the
scripts never deduplicate. -/
theorem listingMerge_duplicate_hash_cex :
    ¬ (listingMerge [ApiResult.resp 200
        { dataField := some [dupHashEntry, dupHashEntry], metaField := none }]).Pairwise
      (fun a b => a.hash ≠ b.hash) := by
  decide

/-- C5 amended: the merge performs no deduplication; the merged prepared
set has pairwise-distinct hashes exactly when the fetched raw entries
already had pairwise-distinct hashes, since preparation preserves each
kept entry's hash. -/
theorem listingMerge_unique_hash_of_distinct (rs : List ApiResult)
    (hdist : (fetchAllSubmissions rs).Pairwise (fun a b => a.hash ≠ b.hash)) :
    (listingMerge rs).Pairwise (fun a b => a.hash ≠ b.hash) := by
  have key : ∀ l : List RawEntry, l.Pairwise (fun a b => a.hash ≠ b.hash) →
      (l.filterMap prepare).Pairwise (fun a b : Submission => a.hash ≠ b.hash) := by
    intro l
    induction l with
    | nil => intro _; simp
    | cons a l ih =>
        intro hp
        rw [List.pairwise_cons] at hp
        rw [List.filterMap_cons]
        cases hpa : prepare a with
        | none => exact ih hp.2
        | some s =>
            rw [List.pairwise_cons]
            refine ⟨?_, ih hp.2⟩
            intro b hb
            obtain ⟨raw, hraw, hpb⟩ := List.mem_filterMap.mp hb
            rw [(prepare_eq_some hpa).1, (prepare_eq_some hpb).1]
            exact hp.1 raw hraw
  exact key _ hdist

/-- Witness for C5 amended: two pages with distinct hashes merge into a
set with pairwise-distinct hashes. -/
theorem listingMerge_unique_hash_of_distinct_witness :
    (listingMerge [ApiResult.resp 200 { dataField := some [catEntry1], metaField := none },
        ApiResult.resp 200 { dataField := some [catEntry2], metaField := none }]).Pairwise
      (fun a b => a.hash ≠ b.hash) :=
  listingMerge_unique_hash_of_distinct _ (by decide)

/-- C8 counterexample: on a fully populated record, the CSV row of
harv_titles_votes.py comes out in the order url, title, votes, name,
category, hash — not the claimed url, title, name, category, hash,
votes — and the field list of harv.py omits hash entirely. -/
theorem csv_order_cex :
    csvRowTv csvDemoSub = ["u", "t", "7", "n", "c", "h"] ∧
    csvRowTv csvDemoSub ≠ ["u", "t", "n", "c", "h", "7"] ∧
    csvKeysTv ≠ ["url", "title", "name", "category", "hash", "votes"] ∧
    csvKeysHarv ≠ ["url", "title", "name", "category", "hash", "votes"] := by
  decide

/-- C8 amended: harv_titles_votes.py writes rows in the fixed column
order url, title, votes, name, category, hash, with a null title or null
votes serialized as the empty cell; harv.py configures the column list
url, title, name, category, votes (hash omitted). -/
theorem csv_row_order_and_empty (s : Submission) :
    csvRowTv s = [pyCell s.url, pyCell s.title,
        (match s.votes with | some v => toString v | none => ""),
        pyCell s.name, pyCell s.category, pyCell s.hash] ∧
    (s.votes = none → csvRowTv s =
      [pyCell s.url, pyCell s.title, "", pyCell s.name, pyCell s.category, pyCell s.hash]) ∧
    (s.title = none → csvRowTv s =
      [pyCell s.url, "", (match s.votes with | some v => toString v | none => ""),
        pyCell s.name, pyCell s.category, pyCell s.hash]) ∧
    csvKeysHarv = ["url", "title", "name", "category", "votes"] := by
  refine ⟨rfl, fun hv => ?_, fun ht => ?_, rfl⟩
  · simp [csvRowTv, csvKeysTv, getCsvField, hv]
  · simp [csvRowTv, csvKeysTv, getCsvField, ht, pyCell]

/-- Witness for C8 amended: a record with null title and null votes
serializes both cells empty in the tv column order. -/
theorem csv_row_order_and_empty_witness :
    csvRowTv ⟨some "u", none, some "n", some "c", some "h", none⟩ =
      [pyCell (some "u"), pyCell (none : Option String), "", pyCell (some "n"),
        pyCell (some "c"), pyCell (some "h")] :=
  (csv_row_order_and_empty _).2.1 rfl
